import Mathlib

/- Shallow embedding of the clickbait scoring backend (src/backend/api.py).
   Scores are modelled as exact rationals; Python round(x, 2) is modelled as
   rounding x*100 to the nearest integer with ties to even, then dividing
   by 100. External collaborators (metadata fetch, transcript fetch, the
   classifier model and the sentence embedder) are oracle functions supplied
   as parameters. -/

/-- Round a rational to the nearest integer, ties to the even integer
(the tie rule of Python round). -/
def roundHalfEven (x : ℚ) : ℤ :=
  if x - ⌊x⌋ < 1/2 then ⌊x⌋
  else if 1/2 < x - ⌊x⌋ then ⌊x⌋ + 1
  else if ⌊x⌋ % 2 = 0 then ⌊x⌋ else ⌊x⌋ + 1

/-- Python round(x, 2): round to two decimal places. -/
def round2 (x : ℚ) : ℚ := (roundHalfEven (x * 100) : ℚ) / 100

/-- Score fusion of api.py lines 111-119: full-data weights when the
transcript was used, degraded weights otherwise, then round(final, 2). -/
def fuse (ai rule sim : ℚ) (used : Bool) : ℚ :=
  round2 (if used then ai * (45/100) + rule * (25/100) + (100 - sim) * (30/100)
          else ai * (60/100) + rule * (40/100))

/-- Risk tier of api.py lines 122-125, evaluated highest-first. -/
def riskLevel (final : ℚ) : String :=
  if 75 ≤ final then "Very High"
  else if 60 ≤ final then "High"
  else if 45 ≤ final then "Medium"
  else "Low"

/-- The clickbait flag of api.py line 135: final greater or equal 55. -/
def clickbait (final : ℚ) : Bool := decide (55 ≤ final)

/-- The values the similarity scorer can return: 0 on blank content, or a
cosine in the interval from -1 to 1 scaled by 100 and rounded. -/
def simProducible (s : ℚ) : Prop :=
  s = 0 ∨ ∃ c : ℚ, -1 ≤ c ∧ c ≤ 1 ∧ s = round2 (c * 100)

/-- Python whitespace characters as treated by str.strip (ASCII part). -/
def pyIsSpace (c : Char) : Bool :=
  c == ' ' || c == '\t' || c == '\n' || c == '\r' || c == '\x0b' || c == '\x0c'

/-- A Python-falsy comparison text: empty or whitespace-only, the condition
guarding similarity_score at api.py line 61. -/
def pyBlank (s : String) : Bool := s.data.all pyIsSpace

/-- Python slice s[:n], the first n characters. -/
def pyTake (s : String) (n : ℕ) : String := String.mk (s.data.take n)

/-- Python str.lower on each character. -/
def pyLower (s : String) : String := String.mk (s.data.map Char.toLower)

/-- Whether the second list starts with the first list. -/
def leadsWith : List Char → List Char → Bool
  | [], _ => true
  | _ :: _, [] => false
  | a :: s, b :: t => a == b && leadsWith s t

/-- Python substring membership: sub occurs somewhere in the second list. -/
def hasSub (sub : List Char) : List Char → Bool
  | [] => leadsWith sub []
  | c :: t => leadsWith sub (c :: t) || hasSub sub t

/-- Python expression sub in s on strings. -/
def pyContains (s sub : String) : Bool := hasSub sub.data s.data

/-- The curated keyword list of api.py lines 22-26. -/
def CLICKBAIT_WORDS : List String :=
  ["shocking", "unbelievable", "secret", "exposed", "you won\x27t believe",
   "insane", "trick", "overnight", "millionaire", "scam", "warning",
   "must watch", "gone wrong", "leaked"]

/-- Keyword contribution of api.py lines 98-99: 8 points per keyword that is a
substring of the lowered title, once per keyword. -/
def kwScore (tLower : String) : ℕ :=
  CLICKBAIT_WORDS.foldl (fun acc w => if pyContains tLower w then acc + 8 else acc) 0

/-- Exclamation contribution of api.py line 100: 2 per mark, capped at 10. -/
def exclaimScore (title : String) : ℕ := min (title.data.count '!' * 2) 10

/-- Question-mark contribution of api.py line 100: 2 per mark, capped at 10. -/
def questionScore (title : String) : ℕ := min (title.data.count '?' * 2) 10

/-- Python str.isupper (ASCII model): some cased character and no lowercase. -/
def pyIsUpper (s : String) : Bool :=
  s.data.any (fun c => c.isAlpha) && s.data.all (fun c => !(c.isLower))

/-- All-caps contribution of api.py line 101. -/
def upperScore (title : String) : ℕ :=
  if pyIsUpper title && decide (10 < title.data.length) then 10 else 0

/-- Digit contribution of api.py line 102: 5 if the title has a digit. -/
def digitScore (title : String) : ℕ := if title.data.any Char.isDigit then 5 else 0

/-- The lexical rule score of api.py lines 96-103, clamped to 40. -/
def rule_score (title : String) : ℕ :=
  min (kwScore (pyLower title) + exclaimScore title + questionScore title
       + upperScore title + digitScore title) 40

/-- similarity_score of api.py lines 60-68 with the embedder abstracted as a
cosine oracle; the boolean records whether the embedder was invoked. -/
def similarity_score (cos : String → String → ℚ) (title content : String) :
    ℚ × Bool :=
  if pyBlank content then (0, false)
  else (round2 (cos title (pyTake content 3000) * 100), true)

/-- Leftmost match of a literal followed by a nonempty greedy capture of
characters other than stop, the shape of the three patterns of extract_id. -/
def searchCapture (lit : List Char) (stop : Char) : List Char → Option (List Char)
  | [] => none
  | c :: t =>
    if leadsWith lit (c :: t) then
      if ((c :: t).drop lit.length).takeWhile (fun d => d != stop) = [] then
        searchCapture lit stop t
      else some (((c :: t).drop lit.length).takeWhile (fun d => d != stop))
    else searchCapture lit stop t

/-- extract_id of api.py lines 32-37: the three url patterns in order. -/
def extract_id (url : String) : Option String :=
  match searchCapture "v=".data '&' url.data with
  | some g => some (String.mk g)
  | none =>
    match searchCapture "youtu.be/".data '?' url.data with
    | some g => some (String.mk g)
    | none =>
      match searchCapture "shorts/".data '?' url.data with
      | some g => some (String.mk g)
      | none => none

/-- The external collaborators of the endpoint: metadata fetch returning an
optional title and description, transcript fetch, classifier confidence and
embedding cosine. -/
structure Collaborators where
  videoInfo : String → Option String × Option String
  transcript : String → Option String
  classify : String → ℚ
  cosine : String → String → ℚ

/-- Which collaborators a run of the endpoint invoked. -/
structure Calls where
  info : Bool
  transcript : Bool
  classify : Bool
  embed : Bool
deriving DecidableEq

/-- Python truthiness of an optional string: None and the empty string are
both falsy, the condition of api.py line 81. -/
def pyTruthy (o : Option String) : Option String :=
  match o with
  | none => none
  | some s => if s = "" then none else some s

/-- The JSON body returned by the predict endpoint. -/
inductive Response where
  | err (msg : String) : Response
  | ok (title : String) (ai : ℚ) (rule : ℕ) (sim : ℚ) (usedTranscript : Bool)
      (final : ℚ) (level : String) (isCb : Bool) : Response
deriving DecidableEq

/-- The similarity_score field of a success response. -/
def Response.simField : Response → Option ℚ
  | Response.err _ => none
  | Response.ok _ _ _ s _ _ _ _ => some s

/-- The transcript_used field of a success response. -/
def Response.usedField : Response → Option Bool
  | Response.err _ => none
  | Response.ok _ _ _ _ u _ _ _ => some u

/-- The predict endpoint of api.py lines 74-136 over abstract collaborators,
also returning which collaborators were invoked. -/
def predict (co : Collaborators) (url : String) : Response × Calls :=
  match extract_id url with
  | none => (Response.err "Invalid YouTube URL", ⟨false, false, false, false⟩)
  | some video_id =>
    match pyTruthy (co.videoInfo url).1 with
    | none => (Response.err "Could not fetch video info", ⟨true, false, false, false⟩)
    | some title =>
      let transcript := co.transcript video_id
      let used_transcript := transcript.isSome
      let full_text := ((co.videoInfo url).2.getD "") ++ " " ++ (transcript.getD "")
      let ai_score := round2 (co.classify title * 100)
      let rs := rule_score title
      let simr := similarity_score co.cosine title full_text
      let final := fuse ai_score (rs : ℚ) simr.1 used_transcript
      (Response.ok title ai_score rs simr.1 used_transcript final
        (riskLevel final) (clickbait final),
       ⟨true, true, true, simr.2⟩)

/-- A stub collaborator set used to instantiate general theorems. -/
def coStub : Collaborators :=
  ⟨fun _ => (some "T", some "d"), fun _ => some "tr", fun _ => 1/2, fun _ _ => 3/4⟩

/-- A collaborator set whose metadata fetch yields an empty title. -/
def coEmptyTitle : Collaborators :=
  ⟨fun _ => (some "", some "d"), fun _ => some "tr", fun _ => 1/2, fun _ _ => 3/4⟩

/-- A collaborator set with no transcript available. -/
def coDegraded : Collaborators :=
  ⟨fun _ => (some "T", some "d"), fun _ => none, fun _ => 1/2, fun _ _ => 3/4⟩

/-- A constant cosine oracle returning 1. -/
def cosOne : String → String → ℚ := fun _ _ => 1

/-- A constant cosine oracle returning one half. -/
def cosHalf : String → String → ℚ := fun _ _ => 1/2

/-- A 3001-character content string whose first 3000 characters are blanks. -/
def spacesX : String := String.mk (List.replicate 3000 ' ' ++ ['x'])

/-- A 3001-character content string of letters. -/
def longA : String := String.mk (List.replicate 3001 'a')

lemma roundHalfEven_le {x : ℚ} {n : ℤ} (h : x ≤ (n : ℚ)) : roundHalfEven x ≤ n := by
  unfold roundHalfEven
  have hfl : (⌊x⌋ : ℚ) ≤ x := Int.floor_le x
  have hfn : ⌊x⌋ ≤ n := by
    have := Int.floor_le_floor (α := ℚ) h
    simpa using this
  split_ifs with h1 h2 h3
  · exact hfn
  · have hlt : (⌊x⌋ : ℚ) < (n : ℚ) := by linarith
    have : ⌊x⌋ < n := by exact_mod_cast hlt
    omega
  · exact hfn
  · have hr : x - (⌊x⌋ : ℚ) = 1/2 := le_antisymm (not_lt.mp h2) (not_lt.mp h1)
    have hlt : (⌊x⌋ : ℚ) < (n : ℚ) := by linarith
    have : ⌊x⌋ < n := by exact_mod_cast hlt
    omega

lemma le_roundHalfEven {x : ℚ} {n : ℤ} (h : (n : ℚ) ≤ x) : n ≤ roundHalfEven x := by
  unfold roundHalfEven
  have hnf : n ≤ ⌊x⌋ := Int.le_floor.mpr h
  split_ifs with h1 h2 h3 <;> omega

lemma round2_le {x : ℚ} {n : ℤ} (h : x ≤ (n : ℚ)) : round2 x ≤ (n : ℚ) := by
  unfold round2
  rw [div_le_iff₀ (by norm_num : (0:ℚ) < 100)]
  have hb : x * 100 ≤ ((n * 100 : ℤ) : ℚ) := by push_cast; nlinarith
  have := roundHalfEven_le hb
  calc (roundHalfEven (x * 100) : ℚ) ≤ ((n * 100 : ℤ) : ℚ) := by exact_mod_cast this
    _ = (n : ℚ) * 100 := by push_cast; ring

lemma le_round2 {x : ℚ} {n : ℤ} (h : (n : ℚ) ≤ x) : (n : ℚ) ≤ round2 x := by
  unfold round2
  rw [le_div_iff₀ (by norm_num : (0:ℚ) < 100)]
  have hb : ((n * 100 : ℤ) : ℚ) ≤ x * 100 := by push_cast; nlinarith
  have := le_roundHalfEven hb
  calc (n : ℚ) * 100 = ((n * 100 : ℤ) : ℚ) := by push_cast; ring
    _ ≤ (roundHalfEven (x * 100) : ℚ) := by exact_mod_cast this

lemma round2_intCast (n : ℤ) : round2 ((n : ℚ)) = (n : ℚ) := by
  unfold round2 roundHalfEven
  have h1 : ((n : ℚ)) * 100 = ((n * 100 : ℤ) : ℚ) := by push_cast; ring
  rw [h1, Int.floor_intCast, if_pos (by norm_num)]
  push_cast
  ring

lemma simProducible_bounds {s : ℚ} (h : simProducible s) : -100 ≤ s ∧ s ≤ 100 := by
  rcases h with rfl | ⟨c, hc1, hc2, rfl⟩
  · norm_num
  · constructor
    · have hb : ((-100 : ℤ) : ℚ) ≤ c * 100 := by push_cast; nlinarith
      have := le_round2 hb
      simpa using this
    · have hb : c * 100 ≤ ((100 : ℤ) : ℚ) := by push_cast; nlinarith
      have := round2_le hb
      simpa using this

lemma fuse_80_40_20_true : fuse 80 40 20 true = 70 := by
  unfold fuse
  have h : (if true = true then (80:ℚ) * (45/100) + 40 * (25/100) + (100 - 20) * (30/100)
      else (80:ℚ) * (60/100) + 40 * (40/100)) = ((70 : ℤ) : ℚ) := by norm_num
  rw [h, round2_intCast]
  norm_num

lemma fuse_80_40_20_false : fuse 80 40 20 false = 64 := by
  unfold fuse
  have h : (if false = true then (80:ℚ) * (45/100) + 40 * (25/100) + (100 - 20) * (30/100)
      else (80:ℚ) * (60/100) + 40 * (40/100)) = ((64 : ℤ) : ℚ) := by norm_num
  rw [h, round2_intCast]
  norm_num

/-- C1: in full-data mode the fused score is aiScore x 0.45 + ruleScore x 0.25 +
(100 - similarityScore) x 0.30 rounded to two decimals, in degraded mode it is
aiScore x 0.60 + ruleScore x 0.40 rounded to two decimals; at aiScore 80,
ruleScore 40, similarityScore 20 these give 70.00 and 64.00. -/
theorem fuse_weighting_modes (ai rule sim : ℚ)
    (hai0 : 0 ≤ ai) (hai1 : ai ≤ 100) (hr0 : 0 ≤ rule) (hr1 : rule ≤ 40) :
    fuse ai rule sim true
        = round2 (ai * (45/100) + rule * (25/100) + (100 - sim) * (30/100)) ∧
    fuse ai rule sim false = round2 (ai * (60/100) + rule * (40/100)) ∧
    fuse 80 40 20 true = 70 ∧ fuse 80 40 20 false = 64 :=
  ⟨rfl, rfl, fuse_80_40_20_true, fuse_80_40_20_false⟩

theorem fuse_weighting_modes_witness :
    fuse 80 40 20 true = 70 ∧ fuse 80 40 20 false = 64 :=
  ⟨(fuse_weighting_modes 80 40 20 (by norm_num) (by norm_num) (by norm_num)
      (by norm_num)).2.2.1,
   (fuse_weighting_modes 80 40 20 (by norm_num) (by norm_num) (by norm_num)
      (by norm_num)).2.2.2⟩

/-- C2 counterexample: similarityScore -100 is producible (cosine -1), and at
aiScore 100, ruleScore 40 in full-data mode the rounded final score is 115,
outside the interval claimed by the spec. -/
theorem fuse_exceeds_100_on_negative_similarity :
    simProducible (-100) ∧ fuse 100 40 (-100) true = 115 ∧
    ¬ fuse 100 40 (-100) true ≤ 100 := by
  have hprod : simProducible (-100) := by
    refine Or.inr ⟨-1, by norm_num, by norm_num, ?_⟩
    have h : ((-1 : ℚ)) * 100 = (((-100) : ℤ) : ℚ) := by norm_num
    rw [h, round2_intCast]
    norm_num
  have hval : fuse 100 40 (-100) true = 115 := by
    unfold fuse
    have h : (if true = true then (100:ℚ) * (45/100) + 40 * (25/100) + (100 - (-100)) * (30/100)
        else (100:ℚ) * (60/100) + 40 * (40/100)) = ((115 : ℤ) : ℚ) := by norm_num
    rw [h, round2_intCast]
    norm_num
  exact ⟨hprod, hval, by rw [hval]; norm_num⟩

/-- C2 amended: for aiScore in the interval 0 to 100, ruleScore in 0 to 40 and
any producible similarityScore, the rounded final score lies in the interval
0 to 115; it lies in 0 to 100 whenever similarityScore is nonnegative, and
always in degraded mode. -/
theorem fuse_range (ai rule sim : ℚ) (u : Bool)
    (hai0 : 0 ≤ ai) (hai1 : ai ≤ 100) (hr0 : 0 ≤ rule) (hr1 : rule ≤ 40)
    (hs : simProducible sim) :
    0 ≤ fuse ai rule sim u ∧ fuse ai rule sim u ≤ 115 ∧
    (0 ≤ sim → fuse ai rule sim u ≤ 100) ∧
    (u = false → fuse ai rule sim u ≤ 100) := by
  obtain ⟨hs0, hs1⟩ := simProducible_bounds hs
  unfold fuse
  cases u
  · simp only [Bool.false_eq_true, if_false]
    have hlo : ((0 : ℤ) : ℚ) ≤ ai * (60/100) + rule * (40/100) := by push_cast; nlinarith
    have hhi : ai * (60/100) + rule * (40/100) ≤ ((100 : ℤ) : ℚ) := by push_cast; nlinarith
    have h0 := le_round2 hlo
    have h100 := round2_le hhi
    exact ⟨by simpa using h0, by simpa using le_trans h100 (by norm_num),
      fun _ => by simpa using h100, fun _ => by simpa using h100⟩
  · simp only [if_true]
    have hlo : ((0 : ℤ) : ℚ)
        ≤ ai * (45/100) + rule * (25/100) + (100 - sim) * (30/100) := by
      push_cast; nlinarith
    have hhi : ai * (45/100) + rule * (25/100) + (100 - sim) * (30/100)
        ≤ ((115 : ℤ) : ℚ) := by push_cast; nlinarith
    have h0 := le_round2 hlo
    have h115 := round2_le hhi
    refine ⟨by simpa using h0, by simpa using h115, fun hpos => ?_, fun hF => by cases hF⟩
    have hhi2 : ai * (45/100) + rule * (25/100) + (100 - sim) * (30/100)
        ≤ ((100 : ℤ) : ℚ) := by push_cast; nlinarith
    simpa using round2_le hhi2

theorem fuse_range_witness :
    0 ≤ fuse 80 40 0 true ∧ fuse 80 40 0 true ≤ 115 ∧
    (0 ≤ (0:ℚ) → fuse 80 40 0 true ≤ 100) ∧
    (true = false → fuse 80 40 0 true ≤ 100) :=
  fuse_range 80 40 0 true (by norm_num) (by norm_num) (by norm_num) (by norm_num)
    (Or.inl rfl)

/-- C3: the risk tier is Very High for final at least 75, High on the interval
from 60 below 75, Medium on 45 below 60, Low below 45; exactly 75.00 gives
Very High, 74.99 gives High, exactly 60.00 gives High. -/
theorem riskLevel_thresholds (f : ℚ) :
    (75 ≤ f → riskLevel f = "Very High") ∧
    (60 ≤ f → f < 75 → riskLevel f = "High") ∧
    (45 ≤ f → f < 60 → riskLevel f = "Medium") ∧
    (f < 45 → riskLevel f = "Low") ∧
    riskLevel 75 = "Very High" ∧ riskLevel (7499/100) = "High" ∧
    riskLevel 60 = "High" := by
  refine ⟨fun h => ?_, fun h1 h2 => ?_, fun h1 h2 => ?_, fun h => ?_, ?_, ?_, ?_⟩
  · unfold riskLevel; rw [if_pos h]
  · unfold riskLevel; rw [if_neg (by linarith), if_pos h1]
  · unfold riskLevel; rw [if_neg (by linarith), if_neg (by linarith), if_pos h1]
  · unfold riskLevel
    rw [if_neg (by linarith), if_neg (by linarith), if_neg (by linarith)]
  · unfold riskLevel; rw [if_pos (by norm_num)]
  · unfold riskLevel; rw [if_neg (by norm_num), if_pos (by norm_num)]
  · unfold riskLevel; rw [if_neg (by norm_num), if_pos (by norm_num)]

theorem riskLevel_thresholds_witness : riskLevel 80 = "Very High" :=
  (riskLevel_thresholds 80).1 (by norm_num)

/-- C4: the clickbait flag is true exactly when the final score is at least 55;
55.00 gives true and 54.99 gives false. -/
theorem clickbait_threshold :
    (∀ f : ℚ, clickbait f = true ↔ 55 ≤ f) ∧
    clickbait 55 = true ∧ clickbait (5499/100) = false := by
  refine ⟨fun f => ?_, ?_, ?_⟩
  · unfold clickbait; exact decide_eq_true_iff
  · unfold clickbait; exact decide_eq_true (by norm_num)
  · unfold clickbait; exact decide_eq_false (by norm_num)

lemma kw_foldl_eq (t : String) (l : List String) (acc : ℕ) :
    l.foldl (fun a w => if pyContains t w then a + 8 else a) acc
      = acc + 8 * (l.filter (fun w => pyContains t w)).length := by
  induction l generalizing acc with
  | nil => simp
  | cons w l ih =>
    simp only [List.foldl_cons, List.filter_cons]
    by_cases h : pyContains t w = true
    · rw [if_pos h, ih, if_pos h]
      simp only [List.length_cons]
      ring
    · rw [if_neg h, ih, if_neg h]

/-- C5: for every title the rule score is between 0 and 40, the exclamation
and question contributions are each capped at 10, the keyword contribution is
8 per distinct keyword found, and the total is the clamp of the five
contributions at 40. -/
theorem rule_score_bounded (title : String) :
    0 ≤ rule_score title ∧ rule_score title ≤ 40 ∧
    exclaimScore title ≤ 10 ∧ questionScore title ≤ 10 ∧
    kwScore (pyLower title)
      = 8 * (CLICKBAIT_WORDS.filter (fun w => pyContains (pyLower title) w)).length ∧
    rule_score title
      = min (kwScore (pyLower title) + exclaimScore title + questionScore title
             + upperScore title + digitScore title) 40 := by
  refine ⟨Nat.zero_le _, Nat.min_le_right _ _, Nat.min_le_right _ _,
    Nat.min_le_right _ _, ?_, rfl⟩
  unfold kwScore
  rw [kw_foldl_eq]
  ring

/-- C6: when no pattern extracts a video identifier, the endpoint returns the
invalid-url error and invokes no collaborator at all. -/
theorem invalid_url_short_circuits (co : Collaborators) (url : String)
    (h : extract_id url = none) :
    predict co url
      = (Response.err "Invalid YouTube URL", ⟨false, false, false, false⟩) := by
  unfold predict
  rw [h]

theorem invalid_url_short_circuits_witness :
    predict coStub "hello"
      = (Response.err "Invalid YouTube URL", ⟨false, false, false, false⟩) :=
  invalid_url_short_circuits coStub "hello" (by decide)

lemma similarity_score_blank (cos : String → String → ℚ) (title content : String)
    (h : pyBlank content = true) :
    similarity_score cos title content = (0, false) := by
  unfold similarity_score
  rw [if_pos h]

/-- C7: on empty or whitespace-only content the similarity scorer returns 0
for every title, and the embedding collaborator is not invoked. -/
theorem similarity_blank_returns_zero (cos : String → String → ℚ)
    (title content : String) (h : pyBlank content = true) :
    similarity_score cos title content = (0, false) :=
  similarity_score_blank cos title content h

theorem similarity_blank_returns_zero_witness :
    similarity_score cosHalf "t" "" = (0, false) ∧
    similarity_score cosHalf "t" "   " = (0, false) :=
  ⟨similarity_blank_returns_zero cosHalf "t" "" (by decide),
   similarity_blank_returns_zero cosHalf "t" "   " (by decide)⟩

lemma all_replicate_false {p : Char → Bool} {c : Char} (hp : p c = false) (n : ℕ)
    (hn : 0 < n) : (List.replicate n c).all p = false := by
  cases n with
  | zero => exact absurd hn (by norm_num)
  | succ m => simp [List.replicate_succ, hp]

lemma pyBlank_take (s : String) (n : ℕ) (h : pyBlank s = true) :
    pyBlank (pyTake s n) = true := by
  simp only [pyBlank, pyTake, List.all_eq_true] at h ⊢
  intro c hc
  exact h c (List.take_subset n s.data hc)

lemma pyTake_idem (s : String) (n : ℕ) : pyTake (pyTake s n) n = pyTake s n := by
  simp [pyTake, List.take_take]

lemma spacesX_not_blank : pyBlank spacesX = false := by
  simp only [pyBlank, spacesX, List.all_append, List.all_cons, List.all_nil]
  rw [show pyIsSpace 'x' = false from rfl]
  simp only [Bool.false_and, Bool.and_false]

lemma spacesX_take : pyTake spacesX 3000 = String.mk (List.replicate 3000 ' ') := by
  simp only [pyTake, spacesX]
  rw [List.take_left' (by rw [List.length_replicate])]

lemma spacesX_take_blank : pyBlank (pyTake spacesX 3000) = true := by
  rw [spacesX_take]
  simp only [pyBlank, List.all_eq_true]
  intro c hc
  rw [List.eq_of_mem_replicate hc]
  decide

/-- C8 counterexample: the content of 3000 blanks followed by the letter x is
not whitespace-only and is longer than 3000 characters, yet with a cosine
oracle constantly 1 the similarity of the full content is 100 while the
similarity of its first 3000 characters is 0, because the truncation is
whitespace-only and short-circuits before the embedder. -/
theorem similarity_truncation_counterexample :
    pyBlank spacesX = false ∧ spacesX.data.length = 3001 ∧
    (similarity_score cosOne "t" spacesX).1 = 100 ∧
    (similarity_score cosOne "t" (pyTake spacesX 3000)).1 = 0 ∧
    (similarity_score cosOne "t" spacesX).1
      ≠ (similarity_score cosOne "t" (pyTake spacesX 3000)).1 := by
  have hlen : spacesX.data.length = 3001 := by
    simp only [spacesX, List.length_append, List.length_replicate,
      List.length_cons, List.length_nil]
  have h1 : (similarity_score cosOne "t" spacesX).1 = 100 := by
    unfold similarity_score
    rw [spacesX_not_blank]
    simp only [Bool.false_eq_true, if_false]
    rw [show cosOne "t" (pyTake spacesX 3000) = 1 from rfl]
    rw [show (1 : ℚ) * 100 = ((100 : ℤ) : ℚ) by norm_num, round2_intCast]
    norm_num
  have h2 : (similarity_score cosOne "t" (pyTake spacesX 3000)).1 = 0 := by
    rw [similarity_score_blank cosOne "t" _ spacesX_take_blank]
  exact ⟨spacesX_not_blank, hlen, h1, h2, by rw [h1, h2]; norm_num⟩

/-- C8 amended: for content longer than 3000 characters whose first 3000
characters are not all whitespace, the similarity of the content equals the
similarity of its first 3000 characters, for every deterministic cosine
oracle and title. -/
theorem similarity_truncation_agrees (cos : String → String → ℚ)
    (title content : String) (hlen : 3000 < content.data.length)
    (hnb : pyBlank (pyTake content 3000) = false) :
    (similarity_score cos title content).1
      = (similarity_score cos title (pyTake content 3000)).1 := by
  have hc : pyBlank content = false := by
    cases h : pyBlank content
    · rfl
    · rw [pyBlank_take content 3000 h] at hnb
      cases hnb
  unfold similarity_score
  rw [hc, hnb]
  simp only [Bool.false_eq_true, if_false, pyTake_idem]

lemma longA_len : 3000 < longA.data.length := by
  simp only [longA, List.length_replicate]
  norm_num

lemma longA_take_not_blank : pyBlank (pyTake longA 3000) = false := by
  have ht : pyTake longA 3000 = String.mk (List.replicate 3000 'a') := by
    simp only [pyTake, longA, List.take_replicate]
    norm_num
  rw [ht]
  simp only [pyBlank]
  exact all_replicate_false (by decide) 3000 (by norm_num)

theorem similarity_truncation_agrees_witness :
    3000 < longA.data.length ∧ pyBlank (pyTake longA 3000) = false ∧
    (similarity_score cosHalf "t" longA).1
      = (similarity_score cosHalf "t" (pyTake longA 3000)).1 :=
  ⟨longA_len, longA_take_not_blank,
   similarity_truncation_agrees cosHalf "t" longA longA_len longA_take_not_blank⟩

/-- C9: a metadata result with an empty-string title is treated exactly like a
metadata failure: the endpoint returns the info-unavailable error and invokes
neither the transcript fetch, nor the classifier, nor the embedder. -/
theorem empty_title_is_metadata_failure (co : Collaborators) (url vid : String)
    (hid : extract_id url = some vid) (ht : (co.videoInfo url).1 = some "") :
    predict co url
      = (Response.err "Could not fetch video info", ⟨true, false, false, false⟩) := by
  unfold predict
  rw [hid, ht]
  simp [pyTruthy]

theorem empty_title_is_metadata_failure_witness :
    predict coEmptyTitle "v=abc"
      = (Response.err "Could not fetch video info", ⟨true, false, false, false⟩) :=
  empty_title_is_metadata_failure coEmptyTitle "v=abc" "abc" (by decide) rfl

/-- C10: with a valid identifier, a nonempty title and no transcript, the
endpoint still computes the similarity score, against the comparison text
description plus a space plus the empty string, and returns it in the
similarity field with the transcript flag false; when the description is
absent or empty that field is 0. -/
theorem degraded_mode_similarity (co : Collaborators) (url vid title : String)
    (desc : Option String) (hid : extract_id url = some vid)
    (hinfo : co.videoInfo url = (some title, desc)) (hne : title ≠ "")
    (htr : co.transcript vid = none) :
    (predict co url).1.simField
      = some (similarity_score co.cosine title ((desc.getD "") ++ " " ++ "")).1 ∧
    (predict co url).1.usedField = some false ∧
    ((desc = none ∨ desc = some "") → (predict co url).1.simField = some 0) := by
  have hpred : (predict co url).1
      = Response.ok title (round2 (co.classify title * 100)) (rule_score title)
          (similarity_score co.cosine title ((desc.getD "") ++ " " ++ "")).1 false
          (fuse (round2 (co.classify title * 100)) ((rule_score title : ℚ))
            (similarity_score co.cosine title ((desc.getD "") ++ " " ++ "")).1 false)
          (riskLevel (fuse (round2 (co.classify title * 100)) ((rule_score title : ℚ))
            (similarity_score co.cosine title ((desc.getD "") ++ " " ++ "")).1 false))
          (clickbait (fuse (round2 (co.classify title * 100)) ((rule_score title : ℚ))
            (similarity_score co.cosine title ((desc.getD "") ++ " " ++ "")).1 false)) := by
    unfold predict
    rw [hid, hinfo]
    simp only [pyTruthy, if_neg hne, htr, Option.isSome_none, Option.getD_none,
      Option.getD_some]
  refine ⟨by rw [hpred]; rfl, by rw [hpred]; rfl, fun hdesc => ?_⟩
  have hblank : pyBlank ((desc.getD "") ++ " " ++ "") = true := by
    rcases hdesc with rfl | rfl <;> decide
  rw [hpred]
  show some (similarity_score co.cosine title ((desc.getD "") ++ " " ++ "")).1 = some 0
  rw [similarity_score_blank co.cosine title _ hblank]

theorem degraded_mode_similarity_witness :
    (predict coDegraded "v=abc").1.simField
      = some (similarity_score coDegraded.cosine "T"
          (((some "d" : Option String).getD "") ++ " " ++ "")).1 ∧
    (predict coDegraded "v=abc").1.usedField = some false ∧
    (((some "d" : Option String) = none ∨ (some "d" : Option String) = some "") →
      (predict coDegraded "v=abc").1.simField = some 0) :=
  degraded_mode_similarity coDegraded "v=abc" "abc" "T" (some "d") (by decide) rfl
    (by decide) rfl
